import Mathlib

/-!
Verification of `src/app/utils/llm.py` (azure-podcast-generator).

The module under verification builds a chat-completion request from a
document and a title, sends it once through an Azure OpenAI client, decodes
the returned message content as JSON and wraps it, together with the
provider-reported usage metrics, into a `PodcastScriptResponse`.  A second
function, `get_encoding`, returns a memoized tiktoken encoding.

The embedding below models:
  - the process environment (`Env`) with the three variables the module reads;
  - the Azure OpenAI client constructor arguments (`AzureOpenAI`), where an
    outer `Option` records whether the keyword argument was passed at all;
  - Python truthiness of `os.getenv` results (`truthyStr`);
  - the prompt template (`PROMPT`) exactly as in the source, including the
    trailing `.strip()` (`pythonStrip`), and Python `str.format` restricted
    to the single field `title` (`pyFormatTitleAux` / `format_title`);
  - `json.loads` as an executable fuel-based JSON parser (`json_loads`);
  - the declared response-format schema (`JSON_SCHEMA`) and a checker
    (`validPodcast`) for the object shape the schema declares;
  - the full call `document_to_podcast_script`, taking the provider as a
    function argument and returning the list of issued outbound requests
    next to the Python result (normal return or raised error);
  - `get_encoding` with the `st.cache_resource` memoization made explicit
    as cache-state passing.
-/

namespace PodcastGen

/-- Process environment: the three variables read by the module
(`os.getenv` returns `None` for an unset variable, modeled as `none`). -/
structure Env where
  AZURE_OPENAI_KEY : Option String
  AZURE_OPENAI_ENDPOINT : Option String
  AZURE_OPENAI_MODEL_DEPLOYMENT : Option String
deriving DecidableEq, Repr

/-- Python truthiness of an `os.getenv` result: `None` and the empty string
are falsy, every other string is truthy. -/
def truthyStr : Option String → Bool
  | none => false
  | some s => s ≠ ""

/-- Python `os.getenv(name, default)`: the default is used only when the
variable is unset (an empty string is returned as is). -/
def getenvD (v : Option String) (dflt : String) : String :=
  v.getD dflt

/-- Bearer-token provider callback.  Modelled from the spec: the function
`get_token_provider` lives in `utils/identity`, which is not part of the
sources under verification; the spec describes it only as an external
collaborator supplying a bearer token for the non-key auth path. -/
inductive TokenProvider where
  | bearerTokenCallback
deriving DecidableEq, Repr

/-- Modelled from the spec: `get_token_provider()` from `utils.identity`
(identity/credential subsystem, out of scope per the spec); it returns the
token-provider callback used for the non-key auth path. -/
def get_token_provider : TokenProvider := TokenProvider.bearerTokenCallback

/-- Arguments of the `AzureOpenAI(...)` client constructor as used by the
module.  An outer `Option` layer records whether the keyword argument was
passed at the call site at all (`none` = argument absent); the inner
`Option String` of `api_key` / `azure_endpoint` is the `os.getenv` result
itself, which may be Python `None`. -/
structure AzureOpenAI where
  api_key : Option String
  api_version : String
  azure_endpoint : Option (Option String)
  azure_ad_token_provider : Option TokenProvider
deriving DecidableEq, Repr

/-- Client construction, lines 103-114 of `llm.py`: branch on the truthiness
of `os.getenv("AZURE_OPENAI_KEY")`; the key branch passes `azure_endpoint`,
the other branch passes `azure_ad_token_provider` instead. -/
def mkAzureOpenAIClient (env : Env) : AzureOpenAI :=
  if truthyStr env.AZURE_OPENAI_KEY then
    { api_key := env.AZURE_OPENAI_KEY
      api_version := "2024-09-01-preview"
      azure_endpoint := some env.AZURE_OPENAI_ENDPOINT
      azure_ad_token_provider := none }
  else
    { api_key := env.AZURE_OPENAI_KEY
      api_version := "2024-09-01-preview"
      azure_endpoint := none
      azure_ad_token_provider := some get_token_provider }

/-- Python whitespace characters stripped by `str.strip()`. -/
def isPyWs (c : Char) : Bool :=
  c = ' ' || c = '\t' || c = '\n' || c = '\x0d' || c = '\x0b' || c = '\x0c'

/-- Python `str.strip()` with no argument: drop whitespace from both ends. -/
def pythonStrip (s : String) : String :=
  ⟨((s.data.dropWhile isPyWs).reverse.dropWhile isPyWs).reverse⟩

/-- The text of the prompt template before its single `\x7btitle\x7d` field,
up to and including the opening quote around the title. -/
def promptTitlePre : String := "Create a highly engaging podcast script named \x27"

/-- Prompt template text after the closing title quote, piece 1 of 8. -/
def promptSeg1 : String := " between two people based on the input text. Use informal language to enhance the human-like quality of the conversation, including expressions like \"wow,\" laughter, and pauses such as \"uhm.\"\n\n# Steps\n\n1. **Review the Document(s"

/-- Prompt template text after the closing title quote, piece 2 of 8. -/
def promptSeg2 : String := ") and Podcast Title**: Understand the main themes, key points, and tone.\n2. **Character Development**: Define two distinct personalities for the hosts.\n3. **Script Structure**: Outline the introduction, main discussion, and conc"

/-- Prompt template text after the closing title quote, piece 3 of 8. -/
def promptSeg3 : String := "lusion.\n4. **Incorporate Informal Language**: Use expressions and fillers to create a natural dialogue flow.\n5. **Engage with Humor and Emotion**: Include laughter and emotional responses to make the conversation lively.\n\n# Outp"

/-- Prompt template text after the closing title quote, piece 4 of 8. -/
def promptSeg4 : String := "ut Format\n\n- A conversational podcast script in structured JSON.\n- Include informal expressions and pauses.\n- Clearly mark speaker turns.\n- Name the hosts Andrew and Emma.\n\n# Examples\n\n**Input:**\n- Document: [Brief overview of t"

/-- Prompt template text after the closing title quote, piece 5 of 8. -/
def promptSeg5 : String := "he content, main themes, or key points]\n- Podcast Title: \"Exploring the Wonders of Space\"\n\n**Output:**\n- Speaker 1: \"Hey everyone, welcome to \x27Exploring the Wonders of Space!\x27 I\x27m [Name], and with me is [Name].\"\n- Speaker 2: \"He"

/-- Prompt template text after the closing title quote, piece 6 of 8. -/
def promptSeg6 : String := "y! Uhm, I\x27m super excited about today\x27s topic. Did you see the latest on the new satellite launch?\"\n- Speaker 1: \"Wow, yes! It\x27s incredible. I mean, imagine the data we\x27ll get! [laughter]\"\n- (Continue with discussion, incorporat"

/-- Prompt template text after the closing title quote, piece 7 of 8. -/
def promptSeg7 : String := "ing humor and informal language)\n\n# Notes\n\n- Maintain a balance between informal language and clear communication.\n- Ensure the conversation is coherent and follows a logical progression.\n- Adapt the style and tone based on the "

/-- Prompt template text after the closing title quote, piece 8 of 8. -/
def promptSeg8 : String := "document\x27s content and podcast title.\n- Think step by step, grasp the key points of the document / paper, and explain them in a conversational tone.\n- Make sure the conversation will take about 5 minutes to read out loud."

/-- The prompt template text after the quote that closes the title. -/
def promptAfterTitleQuote : String := promptSeg1 ++ promptSeg2 ++ promptSeg3 ++ promptSeg4 ++ promptSeg5 ++ promptSeg6 ++ promptSeg7 ++ promptSeg8

/-- Raw prompt template of `llm.py` lines 13-50: the exact content of the
triple-quoted string, before `.strip()` (leading and trailing newline
included), transcribed as a concatenation of adjacent pieces; concatenating
the pieces reproduces the source text character for character (braces are
written `\x7b`/`\x7d` and apostrophes `\x27`).  The chunking keeps every
concrete evaluation over the template shallow. -/
def PROMPT_RAW : String :=
  "\n" ++ promptTitlePre ++ "\x7btitle\x7d" ++ "\x27" ++ promptSeg1 ++ promptSeg2
    ++ promptSeg3 ++ promptSeg4 ++ promptSeg5 ++ promptSeg6 ++ promptSeg7 ++ promptSeg8 ++ "\n"

/-- The module-level `PROMPT` constant: the raw template with `.strip()`
applied, as in the source. -/
def PROMPT : String := pythonStrip PROMPT_RAW

/-- Python `str.format` specialised to a single binding `title=...`:
scan the template; between `\x7b` and `\x7d`, collect a field name, and on the
closing brace splice the title when the field is `title` (the only field
occurring in `PROMPT`; other names would raise `KeyError` in Python and are
left unreplaced here, a case the template never exercises).  The first
`Bool`/`List Char` arguments are the in-field scanner state. -/
def pyFormatTitleAux (title : String) : Bool → List Char → List Char → List Char
  | false, _, [] => []
  | false, acc, c :: cs =>
    if c = '\x7b' then pyFormatTitleAux title true [] cs
    else c :: pyFormatTitleAux title false acc cs
  | true, acc, c :: cs =>
    if c = '\x7d' then
      if acc.reverse = "title".data then
        title.data ++ pyFormatTitleAux title false [] cs
      else
        '\x7b' :: acc.reverse ++ '\x7d' :: pyFormatTitleAux title false [] cs
    else pyFormatTitleAux title true (c :: acc) cs
  | true, acc, [] => '\x7b' :: acc.reverse

/-- The call `PROMPT.format(title=title)` of `llm.py` line 120. -/
def format_title (tmpl : String) (title : String) : String :=
  ⟨pyFormatTitleAux title false [] tmpl.data⟩

/-- JSON values as produced by Python `json.loads`: objects are insertion-
ordered association lists with distinct keys (a later duplicate key in the
source text overwrites the earlier one, as in a Python dict); `nan` and
`inf` cover the non-standard literals `NaN`, `Infinity` and `-Infinity`
that Python json accepts by default. -/
inductive Json where
  | null : Json
  | bool (b : Bool) : Json
  | num (q : ℚ) : Json
  | nan : Json
  | inf (neg : Bool) : Json
  | str (s : String) : Json
  | arr (elems : List Json) : Json
  | obj (members : List (String × Json)) : Json
deriving Repr

/-- Whitespace skipped between JSON tokens (per RFC 8259, the set Python
json skips). -/
def isJsonWs (c : Char) : Bool :=
  c = ' ' || c = '\t' || c = '\n' || c = '\x0d'

/-- Drop leading JSON whitespace. -/
def skipWs : List Char → List Char
  | [] => []
  | c :: cs => if isJsonWs c then skipWs cs else c :: cs

/-- Hexadecimal digit value, computed on the code point. -/
def hexVal (c : Char) : Option Nat :=
  let n := c.toNat
  if 48 ≤ n && n ≤ 57 then some (n - 48)
  else if 97 ≤ n && n ≤ 102 then some (n - 87)
  else if 65 ≤ n && n ≤ 70 then some (n - 55)
  else none

/-- Single-character JSON string escapes other than `\u`. -/
def jsonEscapeChar : Char → Option Char
  | 'b' => some '\x08'
  | 't' => some '\t'
  | 'n' => some '\n'
  | 'f' => some '\x0c'
  | 'r' => some '\x0d'
  | '\"' => some '\"'
  | '/' => some '/'
  | '\\' => some '\\'
  | _ => none

/-- Parse the body of a JSON string after the opening quote, returning the
decoded string and the remaining input.  Handles the simple escapes, `\uXXXX`
(combining a high/low surrogate pair into one character) and rejects raw
control characters, as Python json does in its default strict mode. -/
def parseStringRest : Nat → List Char → Except String (String × List Char)
  | 0, _ => .error "Unterminated string"
  | _ + 1, [] => .error "Unterminated string"
  | fuel + 1, c :: cs =>
    if c = '\"' then .ok ("", cs)
    else if c = '\\' then
      match cs with
      | [] => .error "Unterminated string"
      | e :: cs2 =>
        if e = 'u' then
          match cs2 with
          | h1 :: h2 :: h3 :: h4 :: cs3 =>
            match hexVal h1, hexVal h2, hexVal h3, hexVal h4 with
            | some a, some b, some c1, some d =>
              let n := ((a * 16 + b) * 16 + c1) * 16 + d
              if 0xd800 ≤ n && n ≤ 0xdbff then
                match cs3 with
                | '\\' :: 'u' :: g1 :: g2 :: g3 :: g4 :: cs4 =>
                  match hexVal g1, hexVal g2, hexVal g3, hexVal g4 with
                  | some a2, some b2, some c2, some d2 =>
                    let m := ((a2 * 16 + b2) * 16 + c2) * 16 + d2
                    if 0xdc00 ≤ m && m ≤ 0xdfff then
                      let cp := 0x10000 + (n - 0xd800) * 0x400 + (m - 0xdc00)
                      match parseStringRest fuel cs4 with
                      | .ok (s, rest) => .ok (⟨Char.ofNat cp :: s.data⟩, rest)
                      | .error msg => .error msg
                    else
                      match parseStringRest fuel cs3 with
                      | .ok (s, rest) => .ok (⟨Char.ofNat n :: s.data⟩, rest)
                      | .error msg => .error msg
                  | _, _, _, _ =>
                    match parseStringRest fuel cs3 with
                    | .ok (s, rest) => .ok (⟨Char.ofNat n :: s.data⟩, rest)
                    | .error msg => .error msg
                | _ =>
                  match parseStringRest fuel cs3 with
                  | .ok (s, rest) => .ok (⟨Char.ofNat n :: s.data⟩, rest)
                  | .error msg => .error msg
              else
                match parseStringRest fuel cs3 with
                | .ok (s, rest) => .ok (⟨Char.ofNat n :: s.data⟩, rest)
                | .error msg => .error msg
            | _, _, _, _ => .error "Invalid \\uXXXX escape"
          | _ => .error "Invalid \\uXXXX escape"
        else
          match jsonEscapeChar e with
          | some d =>
            match parseStringRest fuel cs2 with
            | .ok (s, rest) => .ok (⟨d :: s.data⟩, rest)
            | .error msg => .error msg
          | none => .error "Invalid \\escape"
    else if c.toNat < 0x20 then .error "Invalid control character"
    else
      match parseStringRest fuel cs with
      | .ok (s, rest) => .ok (⟨c :: s.data⟩, rest)
      | .error msg => .error msg

/-- Decimal digit test on the code point. -/
def isDigitCh (c : Char) : Bool := 48 ≤ c.toNat && c.toNat ≤ 57

/-- Numeric value of a digit string (most significant first). -/
def digitsToNat (ds : List Char) : Nat :=
  ds.foldl (fun acc c => acc * 10 + (c.toNat - 48)) 0

/-- Parse a JSON number at the head of the input (sign already available in
the characters), following the RFC 8259 grammar: `-? int frac? exp?`, with
no leading zeros in the integer part.  The value is returned as a rational
`m * 10 ^ (e - fracDigits)`. -/
def parseNumber (cs : List Char) : Except String (Json × List Char) :=
  let (neg, cs1) :=
    match cs with
    | '-' :: rest => (true, rest)
    | _ => (false, cs)
  let intDigits := cs1.takeWhile isDigitCh
  let cs2 := cs1.drop intDigits.length
  if intDigits.isEmpty then .error "Expecting value"
  else if intDigits.length > 1 && intDigits.head? == some '0' then
    .error "Expecting value"
  else
    let (fracDigits, cs3) :=
      match cs2 with
      | '.' :: rest =>
        let ds := rest.takeWhile isDigitCh
        (ds, rest.drop ds.length)
      | _ => ([], cs2)
    if cs2.head? == some '.' && fracDigits.isEmpty then
      .error "Expecting fraction digits"
    else
      let (expOk, expNeg, expDigits, cs4) :=
        match cs3 with
        | e :: rest =>
          if e = 'e' || e = 'E' then
            let (en, rest2) :=
              match rest with
              | '+' :: r => (false, r)
              | '-' :: r => (true, r)
              | _ => (false, rest)
            let ds := rest2.takeWhile isDigitCh
            (!ds.isEmpty, en, ds, rest2.drop ds.length)
          else (true, false, [], cs3)
        | [] => (true, false, [], cs3)
      if !expOk then .error "Expecting exponent digits"
      else
        let mantissa : ℤ :=
          (if neg then -1 else 1) * (digitsToNat (intDigits ++ fracDigits) : ℤ)
        let exp : ℤ :=
          (if expNeg then -(digitsToNat expDigits : ℤ) else (digitsToNat expDigits : ℤ))
            - (fracDigits.length : ℤ)
        .ok (Json.num ((mantissa : ℚ) * (10 : ℚ) ^ exp), cs4)

/-- Object member loop: `pv` parses one value at the current (smaller) fuel.
Later duplicate keys overwrite earlier ones, matching Python dict building. -/
def insertMember (acc : List (String × Json)) (k : String) (v : Json) : List (String × Json) :=
  if (acc.map Prod.fst).contains k then
    acc.map (fun kv => if kv.1 = k then (k, v) else kv)
  else acc ++ [(k, v)]

/-- Parse object members after the first key is known to start (input begins
after `\x7b` and any whitespace, first character not `\x7d`). -/
def parseMembersF (pv : List Char → Except String (Json × List Char)) :
    Nat → List (String × Json) → List Char → Except String (Json × List Char)
  | 0, _, _ => .error "Out of fuel"
  | fuel + 1, acc, cs =>
    match skipWs cs with
    | '\"' :: cs1 =>
      match parseStringRest (cs1.length + 1) cs1 with
      | .error msg => .error msg
      | .ok (key, cs2) =>
        match skipWs cs2 with
        | ':' :: cs3 =>
          match pv cs3 with
          | .error msg => .error msg
          | .ok (v, cs4) =>
            let acc2 := insertMember acc key v
            match skipWs cs4 with
            | ',' :: cs5 => parseMembersF pv fuel acc2 cs5
            | '\x7d' :: cs5 => .ok (Json.obj acc2, cs5)
            | _ => .error "Expecting comma delimiter"
        | _ => .error "Expecting colon delimiter"
    | _ => .error "Expecting property name enclosed in double quotes"

/-- Parse array elements after the opening `[` when the array is known to be
non-empty. -/
def parseElementsF (pv : List Char → Except String (Json × List Char)) :
    Nat → List Json → List Char → Except String (Json × List Char)
  | 0, _, _ => .error "Out of fuel"
  | fuel + 1, acc, cs =>
    match pv cs with
    | .error msg => .error msg
    | .ok (v, cs1) =>
      match skipWs cs1 with
      | ',' :: cs2 => parseElementsF pv fuel (acc ++ [v]) cs2
      | ']' :: cs2 => .ok (Json.arr (acc ++ [v]), cs2)
      | _ => .error "Expecting comma delimiter"

/-- Match a keyword literal at the head of the input. -/
def matchLit (lit : List Char) (cs : List Char) : Option (List Char) :=
  if cs.take lit.length = lit then some (cs.drop lit.length) else none

/-- Parse one JSON value, skipping leading whitespace.  Fuel bounds the
nesting depth (and through the member/element loops the total work); any
input is parsed completely with fuel `length + 1`. -/
def parseValueF : Nat → List Char → Except String (Json × List Char)
  | 0, _ => .error "Out of fuel"
  | fuel + 1, cs =>
    match skipWs cs with
    | [] => .error "Expecting value"
    | c :: cs1 =>
      if c = '\x7b' then
        match skipWs cs1 with
        | '\x7d' :: cs2 => .ok (Json.obj [], cs2)
        | cs2 => parseMembersF (parseValueF fuel) (cs2.length + 1) [] cs2
      else if c = '[' then
        match skipWs cs1 with
        | ']' :: cs2 => .ok (Json.arr [], cs2)
        | cs2 => parseElementsF (parseValueF fuel) (cs2.length + 1) [] cs2
      else if c = '\"' then
        match parseStringRest (cs1.length + 1) cs1 with
        | .ok (s, rest) => .ok (Json.str s, rest)
        | .error msg => .error msg
      else if c = 't' then
        match matchLit "rue".data cs1 with
        | some rest => .ok (Json.bool true, rest)
        | none => .error "Expecting value"
      else if c = 'f' then
        match matchLit "alse".data cs1 with
        | some rest => .ok (Json.bool false, rest)
        | none => .error "Expecting value"
      else if c = 'n' then
        match matchLit "ull".data cs1 with
        | some rest => .ok (Json.null, rest)
        | none => .error "Expecting value"
      else if c = 'N' then
        match matchLit "aN".data cs1 with
        | some rest => .ok (Json.nan, rest)
        | none => .error "Expecting value"
      else if c = 'I' then
        match matchLit "nfinity".data cs1 with
        | some rest => .ok (Json.inf false, rest)
        | none => .error "Expecting value"
      else if c = '-' && cs1.head? = some 'I' then
        match matchLit "Infinity".data cs1 with
        | some rest => .ok (Json.inf true, rest)
        | none => .error "Expecting value"
      else if c = '-' || isDigitCh c then
        parseNumber (c :: cs1)
      else .error "Expecting value"

/-- Python `json.loads`: parse one JSON document and reject trailing
non-whitespace (`Extra data`); on failure a `json.JSONDecodeError` carrying
the message is raised. -/
def json_loads (s : String) : Except String Json :=
  match parseValueF (s.data.length + 1) s.data with
  | .error msg => .error msg
  | .ok (j, rest) =>
    if (skipWs rest).isEmpty then .ok j else .error "Extra data"

/-- Declared response-format schema wrapper, `llm.py` lines 52-89: name,
strict flag, description and the JSON-Schema document itself. -/
structure JsonSchemaDecl where
  name : String
  strict : Bool
  description : String
  schema : Json
deriving Repr

/-- The module-level `JSON_SCHEMA` dictionary of `llm.py` lines 52-89,
transcribed field by field. -/
def JSON_SCHEMA : JsonSchemaDecl :=
  { name := "podcast"
    strict := true
    description := "An AI generated podcast script."
    schema := Json.obj
      [ ("type", Json.str "object")
      , ("properties", Json.obj
          [ ("config", Json.obj
              [ ("type", Json.str "object")
              , ("properties", Json.obj
                  [ ("language", Json.obj
                      [ ("type", Json.str "string")
                      , ("description",
                          Json.str "Language code + locale (BCP-47), e.g. en-US or es-PA") ]) ])
              , ("required", Json.arr [Json.str "language"])
              , ("additionalProperties", Json.bool false) ])
          , ("script", Json.obj
              [ ("type", Json.str "array")
              , ("items", Json.obj
                  [ ("type", Json.str "object")
                  , ("properties", Json.obj
                      [ ("name", Json.obj
                          [ ("type", Json.str "string")
                          , ("description", Json.str "Name of the host in lower-case") ])
                      , ("message", Json.obj [("type", Json.str "string")]) ])
                  , ("required", Json.arr [Json.str "name", Json.str "message"])
                  , ("additionalProperties", Json.bool false) ]) ]) ])
      , ("required", Json.arr [Json.str "config", Json.str "script"])
      , ("additionalProperties", Json.bool false) ] }

/-- String test used by the schema checker. -/
def isStrJson : Json → Bool
  | .str _ => true
  | _ => false

/-- Validity of a value against the `config` subschema: an object whose
keys are all among `language` (additionalProperties false), with `language`
present (required) and a string. -/
def validConfig : Json → Bool
  | .obj members =>
    members.all (fun kv => kv.1 = "language") &&
      (match members.lookup "language" with
       | some v => isStrJson v
       | none => false)
  | _ => false

/-- Validity of one `script` array entry: an object whose keys are all among
`name` and `message` (additionalProperties false), both present (required)
and strings. -/
def validScriptEntry : Json → Bool
  | .obj members =>
    members.all (fun kv => kv.1 = "name" || kv.1 = "message") &&
      (match members.lookup "name", members.lookup "message" with
       | some n, some m => isStrJson n && isStrJson m
       | _, _ => false)
  | _ => false

/-- Validity of a value against the `script` subschema: an array of valid
entries. -/
def validScript : Json → Bool
  | .arr elems => elems.all validScriptEntry
  | _ => false

/-- Validity of a decoded value against the schema declared in
`JSON_SCHEMA`: an object whose keys are all among `config` and `script`
(additionalProperties false), with both present (required) and valid. -/
def validPodcast : Json → Bool
  | .obj members =>
    members.all (fun kv => kv.1 = "config" || kv.1 = "script") &&
      (match members.lookup "config", members.lookup "script" with
       | some c, some s => validConfig c && validScript s
       | _, _ => false)
  | _ => false

/-- One chat message of the outbound request (`role`/`content` dict). -/
structure ChatMessage where
  role : String
  content : String
deriving DecidableEq, Repr

/-- The `response_format` argument: a dict with `type` and the schema
declaration. -/
structure ResponseFormat where
  type : String
  json_schema : JsonSchemaDecl
deriving Repr

/-- Arguments of `client.chat.completions.create(...)`, `llm.py` lines
116-133.  The temperature is carried as the exact rational value of the
literal `0.7`. -/
structure ChatRequest where
  messages : List ChatMessage
  model : String
  temperature : ℚ
  response_format : ResponseFormat
  max_tokens : Nat
deriving Repr

/-- Provider-reported usage metrics (`openai.types.CompletionUsage`). -/
structure CompletionUsage where
  prompt_tokens : Nat
  completion_tokens : Nat
  total_tokens : Nat
deriving DecidableEq, Repr

/-- The message object inside one choice of a chat completion. -/
structure ChoiceMessage where
  content : String
deriving DecidableEq, Repr

/-- One element of the `choices` list of a chat completion. -/
structure Choice where
  message : ChoiceMessage
deriving DecidableEq, Repr

/-- A provider chat completion: the `choices` list and the usage metrics. -/
structure ChatCompletion where
  choices : List Choice
  usage : CompletionUsage
deriving DecidableEq, Repr

/-- Python exceptions that can escape `document_to_podcast_script`: errors
raised by the client call itself (transport, authentication, provider-side
— propagated unmodified), `json.JSONDecodeError` from `json.loads`, and
`IndexError` from the unguarded `choices[0]`. -/
inductive PyError where
  | apiConnectionError (msg : String)
  | authenticationError (msg : String)
  | apiStatusError (msg : String)
  | jsonDecodeError (msg : String)
  | indexError (msg : String)
deriving DecidableEq, Repr

/-- Result dataclass of `llm.py` lines 92-95. -/
structure PodcastScriptResponse where
  podcast : Json
  usage : CompletionUsage
deriving Repr

/-- One outbound wire request: the client it was issued through (carrying
auth mode and API version) and the `create` arguments. -/
structure OutboundRequest where
  client : AzureOpenAI
  request : ChatRequest
deriving Repr

/-- Arguments of the `client.chat.completions.create(...)` call assembled by
`document_to_podcast_script` (`llm.py` lines 116-133). -/
def podcastChatRequest (env : Env) (document title : String) : ChatRequest :=
  { messages :=
      [ { role := "system", content := format_title PROMPT title }
      , { role := "user", content := "<documents>" ++ document ++ "</documents>" } ]
    model := getenvD env.AZURE_OPENAI_MODEL_DEPLOYMENT "gpt-4o"
    temperature := 7 / 10
    response_format := { type := "json_schema", json_schema := JSON_SCHEMA }
    max_tokens := 8000 }

/-- The function `document_to_podcast_script` of `llm.py` lines 98-138.

The network is abstracted as the argument `complete`: given the constructed
client and the `create` arguments it either returns a chat completion or
raises (transport, authentication, provider error).  The embedding returns
the list of outbound requests issued during the call next to the Python
outcome (normal return, or the exception that propagates). -/
def document_to_podcast_script (env : Env)
    (complete : AzureOpenAI → ChatRequest → Except PyError ChatCompletion)
    (document : String) (title : String := "AI in Action") :
    List OutboundRequest × Except PyError PodcastScriptResponse :=
  let client := mkAzureOpenAIClient env
  let req : ChatRequest := podcastChatRequest env document title
  let result : Except PyError PodcastScriptResponse :=
    match complete client req with
    | .error e => .error e
    | .ok chat_completion =>
      match chat_completion.choices with
      | [] => .error (PyError.indexError "list index out of range")
      | choice0 :: _ =>
        match json_loads choice0.message.content with
        | .error msg => .error (PyError.jsonDecodeError msg)
        | .ok json_message =>
          .ok { podcast := json_message, usage := chat_completion.usage }
  ([⟨client, req⟩], result)

/-- Tiktoken encoding object, abstracted to the model identifier it was
derived from (the tiktoken library is external to the repository). -/
structure Encoding where
  derived_from_model : String
deriving DecidableEq, Repr

/-- The tiktoken call `tiktoken.encoding_for_model(m)` (external library):
deterministically derives the encoding for a model identifier. -/
def encoding_for_model (m : String) : Encoding :=
  { derived_from_model := m }

/-- The function `get_encoding` of `llm.py` lines 141-146 with the
`st.cache_resource` memoization made explicit: the cache state is the
optional stored instance; a hit returns the stored instance unchanged, a
miss computes `tiktoken.encoding_for_model("gpt-4o")` and stores it.  The
environment is passed to record that the body does not consult it. -/
def get_encoding (env : Env) (cache : Option Encoding) : Encoding × Option Encoding :=
  match cache with
  | some enc => (enc, some enc)
  | none =>
    let encoding := encoding_for_model "gpt-4o"
    (encoding, some encoding)

/-! Helper machinery for reasoning about the (long) prompt template without
deep term recursion: a short-circuiting character-list comparison whose
whnf-evaluation iterates at the head of the term, and splice lemmas for
`pyFormatTitleAux`. -/

/-- Short-circuit equality test on character lists; its evaluation on
concrete lists proceeds by head-position iteration. -/
def eqChars : List Char → List Char → Bool
  | [], [] => true
  | a :: as, b :: bs => a == b && eqChars as bs
  | _, _ => false

/-- Soundness of `eqChars`. -/
theorem eqChars_eq : ∀ l1 l2 : List Char, eqChars l1 l2 = true → l1 = l2 := by
  intro l1
  induction l1 with
  | nil => intro l2 h; cases l2 with
    | nil => rfl
    | cons b bs => simp [eqChars] at h
  | cons a as ih =>
    intro l2 h
    cases l2 with
    | nil => simp [eqChars] at h
    | cons b bs =>
      simp only [eqChars, Bool.and_eq_true, beq_iff_eq] at h
      exact h.1 ▸ congrArg (a :: ·) (ih bs h.2)

/-- Absence of an opening brace, short-circuiting like `eqChars`. -/
def noLBrace : List Char → Bool
  | [] => true
  | c :: cs => !(c == '\x7b') && noLBrace cs

/-- The formatter copies a brace-free block verbatim. -/
theorem pyFormatTitleAux_copy (title : String) (acc : List Char) :
    ∀ pre cs : List Char, noLBrace pre = true →
      pyFormatTitleAux title false acc (pre ++ cs) =
        pre ++ pyFormatTitleAux title false acc cs := by
  intro pre
  induction pre with
  | nil => intro cs _; rfl
  | cons a pre ih =>
    intro cs h
    simp only [noLBrace, Bool.and_eq_true, Bool.not_eq_eq_eq_not, Bool.not_true,
      beq_eq_false_iff_ne, ne_eq] at h
    simp only [List.cons_append, pyFormatTitleAux, if_neg h.1]
    exact congrArg (a :: ·) (ih cs h.2)

/-- The formatter replaces the field `\x7btitle\x7d` by the title. -/
theorem pyFormatTitleAux_field (title : String) (acc cs : List Char) :
    pyFormatTitleAux title false acc ('\x7b' :: 't' :: 'i' :: 't' :: 'l' :: 'e' :: '\x7d' :: cs) =
      title.data ++ pyFormatTitleAux title false [] cs := rfl

/-- The formatter leaves a brace-free remainder unchanged. -/
theorem pyFormatTitleAux_id (title : String) (acc : List Char) (post : List Char)
    (h : noLBrace post = true) :
    pyFormatTitleAux title false acc post = post := by
  have h1 := pyFormatTitleAux_copy title acc post [] h
  have h0 : pyFormatTitleAux title false acc [] = ([] : List Char) := rfl
  simpa [h0] using h1

/-- `noLBrace` distributes over list append. -/
theorem noLBrace_append (l1 l2 : List Char) :
    noLBrace (l1 ++ l2) = (noLBrace l1 && noLBrace l2) := by
  induction l1 with
  | nil => simp [noLBrace]
  | cons a t ih => simp [noLBrace, ih, Bool.and_assoc]

/-- A list whose head fails the predicate is unchanged by `dropWhile`. -/
theorem dropWhile_eq_self_of_head (p : Char → Bool) (l : List Char) (a : Char)
    (h : l.head? = some a) (hp : p a = false) : l.dropWhile p = l := by
  cases l with
  | nil => simp at h
  | cons b t =>
    simp only [List.head?_cons, Option.some.injEq] at h
    subst h
    simp [List.dropWhile_cons, hp]

/-- Unfolding lemma for `pythonStrip` at the level of character lists. -/
theorem pythonStrip_data (s : String) :
    (pythonStrip s).data = ((s.data.dropWhile isPyWs).reverse.dropWhile isPyWs).reverse := rfl

/-- Unfolding lemma for `format_title` at the level of character lists. -/
theorem format_title_data (tmpl title : String) :
    (format_title tmpl title).data = pyFormatTitleAux title false [] tmpl.data := rfl

/-- Stripping `"\n" ++ body ++ "\n"` where the body starts and ends with
non-whitespace characters returns exactly the body. -/
theorem stripList_sandwich (l : List Char) (a b : Char)
    (hh : l.head? = some a) (ha : isPyWs a = false)
    (hl : l.getLast? = some b) (hb : isPyWs b = false) :
    (((('\n' :: (l ++ ['\n'])).dropWhile isPyWs).reverse.dropWhile isPyWs).reverse) = l := by
  cases l with
  | nil => simp at hh
  | cons a0 t =>
    simp only [List.head?_cons, Option.some.injEq] at hh
    subst hh
    have h1 : ('\n' :: ((a0 :: t) ++ ['\n'])).dropWhile isPyWs = (a0 :: t) ++ ['\n'] := by
      simp [List.dropWhile_cons, show isPyWs '\n' = true from rfl, ha]
    rw [h1]
    have h2 : ((a0 :: t) ++ ['\n']).reverse = '\n' :: (a0 :: t).reverse := by
      simp
    rw [h2, List.dropWhile_cons]
    simp only [show isPyWs '\n' = true from rfl, if_true]
    rw [dropWhile_eq_self_of_head isPyWs ((a0 :: t).reverse) b
      (by rw [List.head?_reverse]; exact hl) hb]
    exact List.reverse_reverse _

set_option maxRecDepth 2000 in
/-- Decomposition of the stripped prompt template `PROMPT` around its single
`\x7btitle\x7d` field. -/
theorem PROMPT_data :
    PROMPT.data =
      promptTitlePre.data ++ ("\x7btitle\x7d".data ++ ("\x27".data ++ (promptSeg1.data
        ++ (promptSeg2.data ++ (promptSeg3.data ++ (promptSeg4.data ++ (promptSeg5.data
        ++ (promptSeg6.data ++ (promptSeg7.data ++ promptSeg8.data))))))))) := by
  have hRaw : PROMPT_RAW.data =
      '\n' :: ((promptTitlePre.data ++ ("\x7btitle\x7d".data ++ ("\x27".data ++ (promptSeg1.data
        ++ (promptSeg2.data ++ (promptSeg3.data ++ (promptSeg4.data ++ (promptSeg5.data
        ++ (promptSeg6.data ++ (promptSeg7.data ++ promptSeg8.data)))))))))) ++ ['\n']) := by
    simp [PROMPT_RAW, String.data_append, show ("\n" : String).data = ['\n'] from rfl,
      List.append_assoc]
  rw [show PROMPT.data = ((PROMPT_RAW.data.dropWhile isPyWs).reverse.dropWhile isPyWs).reverse
    from pythonStrip_data PROMPT_RAW]
  rw [hRaw]
  refine stripList_sandwich _ 'C' '.' rfl rfl ?_ rfl
  simp only [List.getLast?_append]
  rfl

set_option maxRecDepth 1500 in
/-- Auxiliary brace-freeness of the prompt text after the title field. -/
theorem noLBrace_after_title :
    noLBrace (("\x27" : String).data ++ (promptSeg1.data ++ (promptSeg2.data
      ++ (promptSeg3.data ++ (promptSeg4.data ++ (promptSeg5.data ++ (promptSeg6.data
      ++ (promptSeg7.data ++ promptSeg8.data)))))))) = true := by
  simp only [noLBrace_append, Bool.and_eq_true]
  exact ⟨rfl, rfl, rfl, rfl, rfl, rfl, rfl, rfl, rfl⟩

set_option maxRecDepth 1500 in
/-- The system prompt produced by `PROMPT.format(title=title)`: the template
with the title spliced into its single field. -/
theorem format_title_PROMPT (title : String) :
    format_title PROMPT title =
      promptTitlePre ++ (title ++ ("\x27" ++ promptAfterTitleQuote)) := by
  apply String.ext
  rw [format_title_data]
  rw [PROMPT_data]
  rw [pyFormatTitleAux_copy title [] promptTitlePre.data _ rfl]
  rw [show ∀ R : List Char, ("\x7btitle\x7d" : String).data ++ R =
    '\x7b' :: 't' :: 'i' :: 't' :: 'l' :: 'e' :: '\x7d' :: R from fun R => rfl]
  rw [pyFormatTitleAux_field]
  rw [pyFormatTitleAux_id title [] _ noLBrace_after_title]
  simp [String.data_append, promptAfterTitleQuote, List.append_assoc]

/-! Claim theorems. -/

/-- C1: for every document and title, `document_to_podcast_script` issues
exactly one outbound chat-completion request carrying exactly two messages:
a system message whose content is the prompt template with the title
interpolated (starting with the quoted title phrase) and a user message
whose content is exactly `<documents>` ++ document ++ `</documents>` with no
transformation of the document; in particular for title `Space Talk` and
document `The sky is blue.` the user content is exactly
`<documents>The sky is blue.</documents>` and the system content starts with
the quoted `Space Talk` phrase. -/
theorem C1_single_request_two_messages :
    (∀ (env : Env) (complete : AzureOpenAI → ChatRequest → Except PyError ChatCompletion)
        (document title : String),
      ((document_to_podcast_script env complete document title).1.map
        (fun r => r.request.messages)) =
        [[ { role := "system"
           , content := "Create a highly engaging podcast script named \x27"
               ++ (title ++ ("\x27" ++ promptAfterTitleQuote)) }
         , { role := "user"
           , content := "<documents>" ++ document ++ "</documents>" } ]])
    ∧ (∀ (env : Env) (complete : AzureOpenAI → ChatRequest → Except PyError ChatCompletion),
      ((document_to_podcast_script env complete "The sky is blue." "Space Talk").1.map
        (fun r => r.request.messages.map (fun msg => msg.content))) =
        [[ "Create a highly engaging podcast script named \x27Space Talk\x27"
             ++ promptAfterTitleQuote
         , "<documents>The sky is blue.</documents>" ]]) := by
  have key : ∀ (env : Env) (complete : AzureOpenAI → ChatRequest → Except PyError ChatCompletion)
      (document title : String),
      ((document_to_podcast_script env complete document title).1.map
        (fun r => r.request.messages)) =
        [[ { role := "system"
           , content := promptTitlePre ++ (title ++ ("\x27" ++ promptAfterTitleQuote)) }
         , { role := "user"
           , content := "<documents>" ++ document ++ "</documents>" } ]] := by
    intro env complete document title
    simp only [document_to_podcast_script, podcastChatRequest, List.map_cons, List.map_nil]
    rw [format_title_PROMPT]
  constructor
  · intro env complete document title
    exact key env complete document title
  · intro env complete
    have h := key env complete "The sky is blue." "Space Talk"
    have hpre : promptTitlePre ++ ("Space Talk" ++ ("\x27" ++ promptAfterTitleQuote)) =
        "Create a highly engaging podcast script named \x27Space Talk\x27"
          ++ promptAfterTitleQuote := by
      apply String.ext
      simp only [String.data_append, ← List.append_assoc]
      exact congrArg (· ++ promptAfterTitleQuote.data) rfl
    calc ((document_to_podcast_script env complete "The sky is blue." "Space Talk").1.map
        (fun r => r.request.messages.map (fun msg => msg.content)))
        = ((document_to_podcast_script env complete "The sky is blue." "Space Talk").1.map
            (fun r => r.request.messages)).map (fun msgs => msgs.map (fun msg => msg.content)) := by
          simp [List.map_map, Function.comp]
      _ = [[ "Create a highly engaging podcast script named \x27Space Talk\x27"
               ++ promptAfterTitleQuote
           , "<documents>The sky is blue.</documents>" ]] := by
          rw [h]
          simp only [List.map_cons, List.map_nil]
          rw [hpre]
          rfl

/-- C5: every request issued by `document_to_podcast_script` carries the
fixed parameter values: API version `2024-09-01-preview`, temperature 0.7,
maximum output token cap 8000, a strict JSON-schema response-format
constraint named `podcast`, and the model taken from
`AZURE_OPENAI_MODEL_DEPLOYMENT` with default `gpt-4o` when unset. -/
theorem C5_fixed_request_parameters :
    ∀ (env : Env) (complete : AzureOpenAI → ChatRequest → Except PyError ChatCompletion)
      (document title : String),
      ((document_to_podcast_script env complete document title).1.map
        (fun r =>
          (r.client.api_version, r.request.temperature, r.request.max_tokens,
           r.request.response_format.type, r.request.response_format.json_schema.name,
           r.request.response_format.json_schema.strict, r.request.model))) =
        [("2024-09-01-preview", (7 : ℚ) / 10, 8000, "json_schema", "podcast", true,
          getenvD env.AZURE_OPENAI_MODEL_DEPLOYMENT "gpt-4o")] := by
  intro env complete document title
  simp only [document_to_podcast_script, podcastChatRequest, List.map_cons, List.map_nil,
    mkAzureOpenAIClient]
  by_cases h : truthyStr env.AZURE_OPENAI_KEY <;> simp [h, JSON_SCHEMA]

/-- Environment with `AZURE_OPENAI_KEY` set to the empty string. -/
def envEmptyKey : Env :=
  { AZURE_OPENAI_KEY := some ""
    AZURE_OPENAI_ENDPOINT := some "https://example.openai.azure.com"
    AZURE_OPENAI_MODEL_DEPLOYMENT := none }

/-- C3 counterexample: with `AZURE_OPENAI_KEY` set (to the empty string) the
client is nevertheless constructed with the bearer-token provider callback
and without the endpoint argument — the key being set does not select the
static-key path, refuting selection-by-presence. -/
theorem C3_counterexample_empty_key_set_but_token_path :
    envEmptyKey.AZURE_OPENAI_KEY ≠ none ∧
    (mkAzureOpenAIClient envEmptyKey).azure_ad_token_provider = some get_token_provider ∧
    (mkAzureOpenAIClient envEmptyKey).azure_endpoint = none := by
  refine ⟨?_, rfl, rfl⟩
  intro h
  simp [envEmptyKey] at h

/-- C3 (amended): the authentication path is selected by the truthiness of
`AZURE_OPENAI_KEY` — when the key is set to a non-empty string the client is
constructed with the static API key and the `AZURE_OPENAI_ENDPOINT` value,
otherwise with the bearer-token provider callback; the two paths are
mutually exclusive and exhaustive. -/
theorem C3_auth_path_selection :
    ∀ env : Env,
      (truthyStr env.AZURE_OPENAI_KEY = true →
        mkAzureOpenAIClient env =
          { api_key := env.AZURE_OPENAI_KEY
            api_version := "2024-09-01-preview"
            azure_endpoint := some env.AZURE_OPENAI_ENDPOINT
            azure_ad_token_provider := none })
      ∧ (truthyStr env.AZURE_OPENAI_KEY = false →
        mkAzureOpenAIClient env =
          { api_key := env.AZURE_OPENAI_KEY
            api_version := "2024-09-01-preview"
            azure_endpoint := none
            azure_ad_token_provider := some get_token_provider })
      ∧ ((mkAzureOpenAIClient env).azure_ad_token_provider = none ↔
          truthyStr env.AZURE_OPENAI_KEY = true) := by
  intro env
  refine ⟨fun h => ?_, fun h => ?_, ?_⟩
  · simp [mkAzureOpenAIClient, h]
  · simp [mkAzureOpenAIClient, h]
  · by_cases h : truthyStr env.AZURE_OPENAI_KEY <;> simp [mkAzureOpenAIClient, h]

/-- Witness for C3: a non-empty key selects the static-key path with the
endpoint value. -/
theorem C3_auth_path_selection_witness :
    truthyStr (Env.mk (some "sk-abc123") (some "https://example.openai.azure.com")
        none).AZURE_OPENAI_KEY = true ∧
    mkAzureOpenAIClient
        (Env.mk (some "sk-abc123") (some "https://example.openai.azure.com") none) =
      { api_key := some "sk-abc123"
        api_version := "2024-09-01-preview"
        azure_endpoint := some (some "https://example.openai.azure.com")
        azure_ad_token_provider := none } :=
  ⟨by decide,
   (C3_auth_path_selection
     (Env.mk (some "sk-abc123") (some "https://example.openai.azure.com") none)).1 (by decide)⟩

/-- C9: auth-path selection is by truthiness, not presence, of
`AZURE_OPENAI_KEY` — a key set to the empty string selects the
token-provider path; on that path the client is constructed without the
endpoint argument while the falsy key value is still passed as `api_key`;
the endpoint is passed exactly on the key-based path; and `api_key` always
receives the environment value. -/
theorem C9_truthiness_selection :
    (∀ env : Env, env.AZURE_OPENAI_KEY = some "" →
      mkAzureOpenAIClient env =
        { api_key := some ""
          api_version := "2024-09-01-preview"
          azure_endpoint := none
          azure_ad_token_provider := some get_token_provider })
    ∧ (∀ env : Env,
        (mkAzureOpenAIClient env).azure_endpoint = some env.AZURE_OPENAI_ENDPOINT ↔
          truthyStr env.AZURE_OPENAI_KEY = true)
    ∧ (∀ env : Env, (mkAzureOpenAIClient env).api_key = env.AZURE_OPENAI_KEY) := by
  refine ⟨fun env h => ?_, fun env => ?_, fun env => ?_⟩
  · have ht : truthyStr env.AZURE_OPENAI_KEY = false := by simp [truthyStr, h]
    simp [mkAzureOpenAIClient, ht, h, truthyStr]
  · by_cases h : truthyStr env.AZURE_OPENAI_KEY <;> simp [mkAzureOpenAIClient, h]
  · by_cases h : truthyStr env.AZURE_OPENAI_KEY <;> simp [mkAzureOpenAIClient, h]

/-- Witness for C9 at the concrete empty-string environment. -/
theorem C9_truthiness_selection_witness :
    mkAzureOpenAIClient envEmptyKey =
      { api_key := some ""
        api_version := "2024-09-01-preview"
        azure_endpoint := none
        azure_ad_token_provider := some get_token_provider } :=
  C9_truthiness_selection.1 envEmptyKey rfl

/-- C8: when the caller omits the title argument the default title
`AI in Action` is used, so the system message is the prompt template
interpolated with `AI in Action`. -/
theorem C8_default_title :
    ∀ (env : Env) (complete : AzureOpenAI → ChatRequest → Except PyError ChatCompletion)
      (document : String),
      document_to_podcast_script env complete document =
        document_to_podcast_script env complete document "AI in Action"
      ∧ ((document_to_podcast_script env complete document).1.map
          (fun r => r.request.messages.head?.map (fun msg => msg.content))) =
        [some ("Create a highly engaging podcast script named \x27"
          ++ ("AI in Action" ++ ("\x27" ++ promptAfterTitleQuote)))] := by
  intro env complete document
  refine ⟨rfl, ?_⟩
  simp only [document_to_podcast_script, podcastChatRequest, List.map_cons, List.map_nil,
    List.head?_cons, Option.map_some]
  rw [format_title_PROMPT]
  rfl

/-- C6: the tokenizer accessor is memoized — with a populated cache it
returns the cached instance and leaves the cache unchanged, so every call
after the first returns the same instance; the computed encoding is always
derived from the fixed model identifier `gpt-4o`; and the result is
independent of the environment (in particular of
`AZURE_OPENAI_MODEL_DEPLOYMENT`). -/
theorem C6_get_encoding_memoized :
    (∀ (env : Env) (enc : Encoding), get_encoding env (some enc) = (enc, some enc))
    ∧ (∀ (env : Env) (cache : Option Encoding),
        get_encoding env ((get_encoding env cache).2) =
          ((get_encoding env cache).1, (get_encoding env cache).2))
    ∧ (∀ env : Env, (get_encoding env none).1 = encoding_for_model "gpt-4o")
    ∧ (∀ (env env2 : Env) (cache : Option Encoding),
        get_encoding env cache = get_encoding env2 cache) := by
  refine ⟨fun env enc => rfl, fun env cache => ?_, fun env => rfl, fun env env2 cache => rfl⟩
  cases cache <;> rfl

/-- Successful run of `document_to_podcast_script`: when the client call
returns a completion, the first choice's content decodes to `j`, the result
is `PodcastScriptResponse` with that decoded value and the completion's
usage. -/
theorem podcast_result_ok (env : Env)
    (complete : AzureOpenAI → ChatRequest → Except PyError ChatCompletion)
    (document title : String) (completion : ChatCompletion) (c : Choice)
    (tl : List Choice) (j : Json)
    (h1 : complete (mkAzureOpenAIClient env) (podcastChatRequest env document title) =
      .ok completion)
    (h2 : completion.choices = c :: tl)
    (h3 : json_loads c.message.content = .ok j) :
    (document_to_podcast_script env complete document title).2 =
      .ok { podcast := j, usage := completion.usage } := by
  obtain ⟨choices, usage⟩ := completion
  simp only at h2
  subst h2
  simp only [document_to_podcast_script, h1, h3]

/-- Sample usage metrics for concrete runs. -/
def usageEx : CompletionUsage :=
  { prompt_tokens := 25, completion_tokens := 12, total_tokens := 37 }

/-- A schema-conforming JSON document as message content. -/
def contentValid : String :=
  "\x7b\"config\": \x7b\"language\": \"en-US\"\x7d, \"script\": [\x7b\"name\": \"andrew\", \"message\": \"Hello!\"\x7d]\x7d"

/-- The JSON value `contentValid` decodes to. -/
def jsonValid : Json :=
  Json.obj
    [ ("config", Json.obj [("language", Json.str "en-US")])
    , ("script", Json.arr [Json.obj [("name", Json.str "andrew"), ("message", Json.str "Hello!")]]) ]

/-- Completion whose single choice carries the conforming content. -/
def completionValid : ChatCompletion :=
  { choices := [{ message := { content := contentValid } }], usage := usageEx }

/-- Provider returning the conforming completion. -/
def completeValid : AzureOpenAI → ChatRequest → Except PyError ChatCompletion :=
  fun _ _ => .ok completionValid

set_option maxRecDepth 2000 in
/-- Evaluation of the embedded `json.loads` on the conforming content. -/
theorem json_loads_contentValid : json_loads contentValid = .ok jsonValid := rfl

/-- C7: on success the returned `PodcastScriptResponse` carries exactly the
JSON-decoded content of the returned message as `podcast` and exactly the
provider-reported usage metrics of that same completion as `usage`. -/
theorem C7_result_is_decoded_content_and_usage :
    ∀ (env : Env) (complete : AzureOpenAI → ChatRequest → Except PyError ChatCompletion)
      (document title : String) (completion : ChatCompletion) (c : Choice)
      (tl : List Choice) (j : Json),
      complete (mkAzureOpenAIClient env) (podcastChatRequest env document title) =
        .ok completion →
      completion.choices = c :: tl →
      json_loads c.message.content = .ok j →
      (document_to_podcast_script env complete document title).2 =
        .ok { podcast := j, usage := completion.usage } :=
  fun env complete document title completion c tl j h1 h2 h3 =>
    podcast_result_ok env complete document title completion c tl j h1 h2 h3

/-- Witness for C7 on a concrete conforming run. -/
theorem C7_result_witness :
    (document_to_podcast_script envEmptyKey completeValid "A document." "A title").2 =
      .ok { podcast := jsonValid, usage := usageEx } :=
  C7_result_is_decoded_content_and_usage envEmptyKey completeValid "A document." "A title"
    completionValid { message := { content := contentValid } } [] jsonValid
    rfl rfl json_loads_contentValid

/-- C10: the decode step reads only `choices[0]` and the access is
unguarded — an empty `choices` list makes the call fail with the indexing
error, and with a non-empty `choices` list that error branch is
unreachable. -/
theorem C10_choices_indexing :
    (∀ (env : Env) (complete : AzureOpenAI → ChatRequest → Except PyError ChatCompletion)
        (document title : String) (completion : ChatCompletion),
      complete (mkAzureOpenAIClient env) (podcastChatRequest env document title) =
        .ok completion →
      completion.choices = [] →
      (document_to_podcast_script env complete document title).2 =
        .error (PyError.indexError "list index out of range"))
    ∧ (∀ (env : Env) (complete : AzureOpenAI → ChatRequest → Except PyError ChatCompletion)
        (document title : String) (completion : ChatCompletion),
      complete (mkAzureOpenAIClient env) (podcastChatRequest env document title) =
        .ok completion →
      completion.choices ≠ [] →
      ∀ msg, (document_to_podcast_script env complete document title).2 ≠
        .error (PyError.indexError msg)) := by
  constructor
  · intro env complete document title completion h1 h2
    obtain ⟨choices, usage⟩ := completion
    simp only at h2
    subst h2
    simp only [document_to_podcast_script, h1]
  · intro env complete document title completion h1 h2 msg
    obtain ⟨choices, usage⟩ := completion
    simp only at h2
    cases choices with
    | nil => exact absurd rfl h2
    | cons c tl =>
      simp only [document_to_podcast_script, h1]
      cases hj : json_loads c.message.content with
      | error m => simp
      | ok j => simp

/-- Provider returning a completion with an empty `choices` list. -/
def completeNoChoices : AzureOpenAI → ChatRequest → Except PyError ChatCompletion :=
  fun _ _ => .ok { choices := [], usage := usageEx }

/-- Witness for C10: an empty `choices` list produces the indexing error,
and the conforming run never produces it. -/
theorem C10_choices_indexing_witness :
    (document_to_podcast_script envEmptyKey completeNoChoices "A document." "A title").2 =
      .error (PyError.indexError "list index out of range")
    ∧ (document_to_podcast_script envEmptyKey completeValid "A document." "A title").2 ≠
      .error (PyError.indexError "list index out of range") :=
  ⟨C10_choices_indexing.1 envEmptyKey completeNoChoices "A document." "A title"
      { choices := [], usage := usageEx } rfl rfl,
   C10_choices_indexing.2 envEmptyKey completeValid "A document." "A title"
      completionValid rfl (by simp [completionValid]) "list index out of range"⟩

/-- C4: a provider message content that is not valid JSON makes the call
fail with the decode error (carrying the decoder's message, unmodified) and
no `PodcastScriptResponse` is returned; errors raised by the client call
itself (transport, authentication, provider-side) propagate unmodified. -/
theorem C4_failures_propagate :
    (∀ (env : Env) (complete : AzureOpenAI → ChatRequest → Except PyError ChatCompletion)
        (document title : String) (completion : ChatCompletion) (c : Choice)
        (tl : List Choice) (msg : String),
      complete (mkAzureOpenAIClient env) (podcastChatRequest env document title) =
        .ok completion →
      completion.choices = c :: tl →
      json_loads c.message.content = .error msg →
      (document_to_podcast_script env complete document title).2 =
        .error (PyError.jsonDecodeError msg))
    ∧ (∀ (env : Env) (complete : AzureOpenAI → ChatRequest → Except PyError ChatCompletion)
        (document title : String) (e : PyError),
      complete (mkAzureOpenAIClient env) (podcastChatRequest env document title) =
        .error e →
      (document_to_podcast_script env complete document title).2 = .error e) := by
  constructor
  · intro env complete document title completion c tl msg h1 h2 h3
    obtain ⟨choices, usage⟩ := completion
    simp only at h2
    subst h2
    simp only [document_to_podcast_script, h1, h3]
  · intro env complete document title e h1
    simp only [document_to_podcast_script, h1]

/-- Provider returning a message whose content is not JSON. -/
def completeNotJson : AzureOpenAI → ChatRequest → Except PyError ChatCompletion :=
  fun _ _ => .ok { choices := [{ message := { content := "It is not JSON" } }], usage := usageEx }

/-- Provider raising a transport error. -/
def completeConnErr : AzureOpenAI → ChatRequest → Except PyError ChatCompletion :=
  fun _ _ => .error (PyError.apiConnectionError "Connection error.")

/-- Witness for C4: the concrete non-JSON content fails with the decode
error, and a concrete transport error propagates unmodified. -/
theorem C4_failures_propagate_witness :
    (document_to_podcast_script envEmptyKey completeNotJson "A document." "A title").2 =
      .error (PyError.jsonDecodeError "Expecting value")
    ∧ (document_to_podcast_script envEmptyKey completeConnErr "A document." "A title").2 =
      .error (PyError.apiConnectionError "Connection error.") :=
  ⟨C4_failures_propagate.1 envEmptyKey completeNotJson "A document." "A title"
      { choices := [{ message := { content := "It is not JSON" } }], usage := usageEx }
      { message := { content := "It is not JSON" } } [] "Expecting value" rfl rfl rfl,
   C4_failures_propagate.2 envEmptyKey completeConnErr "A document." "A title"
      (PyError.apiConnectionError "Connection error.") rfl⟩

/-- Provider returning the valid-JSON but non-conforming content `\x7b\x7d`. -/
def completeEmptyObj : AzureOpenAI → ChatRequest → Except PyError ChatCompletion :=
  fun _ _ => .ok { choices := [{ message := { content := "\x7b\x7d" } }], usage := usageEx }

/-- C2 counterexample: a provider message content that parses as JSON (the
empty object) is returned as the `podcast` field even though it violates the
declared schema — the function performs no schema validation. -/
theorem C2_counterexample_no_validation :
    (document_to_podcast_script envEmptyKey completeEmptyObj "A document." "A title").2 =
      .ok { podcast := Json.obj [], usage := usageEx }
    ∧ validPodcast (Json.obj []) = false :=
  ⟨rfl, rfl⟩

/-- C2 (amended): when the provider message content parses as JSON that
itself conforms to the declared schema, the `podcast` field of the returned
`PodcastScriptResponse` validates against the schema (the code adds no
validation of its own, so conformance of the output follows exactly from
conformance of the decoded content). -/
theorem C2_schema_validation_conditional :
    ∀ (env : Env) (complete : AzureOpenAI → ChatRequest → Except PyError ChatCompletion)
      (document title : String) (completion : ChatCompletion) (c : Choice)
      (tl : List Choice) (j : Json) (resp : PodcastScriptResponse),
      complete (mkAzureOpenAIClient env) (podcastChatRequest env document title) =
        .ok completion →
      completion.choices = c :: tl →
      json_loads c.message.content = .ok j →
      validPodcast j = true →
      (document_to_podcast_script env complete document title).2 = .ok resp →
      validPodcast resp.podcast = true := by
  intro env complete document title completion c tl j resp h1 h2 h3 hv hr
  have hok := podcast_result_ok env complete document title completion c tl j h1 h2 h3
  rw [hr] at hok
  have : resp = { podcast := j, usage := completion.usage } := by
    injection hok
  rw [this]
  exact hv

set_option maxRecDepth 2000 in
/-- Witness for C2 (amended) on the conforming concrete run. -/
theorem C2_schema_validation_witness :
    validPodcast ((PodcastScriptResponse.mk jsonValid usageEx).podcast) = true :=
  C2_schema_validation_conditional envEmptyKey completeValid "A document." "A title"
    completionValid { message := { content := contentValid } } [] jsonValid
    (PodcastScriptResponse.mk jsonValid usageEx)
    rfl rfl json_loads_contentValid rfl rfl

end PodcastGen

